import Mathlib

/-!
Verification of the posture-classification core (`src/logic/posture_logic.py`).

The Python core operates on float arithmetic; we embed it over the real
numbers `ℝ`, translating each function of the source one-to-one:

* `_compute_midpoint`            → `compute_midpoint`
* `_compute_angle_with_vertical` → `compute_angle_with_vertical`
* `_compute_neck_angle`          → `compute_neck_angle`
* `_compute_back_angle`          → `compute_back_angle`
* `classify_posture`             → `classify_posture`

A Python keypoint dictionary becomes a function `String → Option Vec2`;
a `KeyError` raised on a missing key becomes an `Option.none` result
(`compute_neck_angle` / `compute_back_angle` / `classify_posture` return
`none` exactly when a required key is absent, modelling fail-fast error
propagation).  The boolean `is_good` of the source, computed by comparing
real-valued angles, is embedded as the corresponding proposition.
-/

namespace PostureLogic

/-- A 2D point / vector with real coordinates, standing for the `(x, y)`
tuples and 2-element NumPy arrays of the source. -/
structure Vec2 where
  x : ℝ
  y : ℝ

/-- `NECK_ANGLE_THRESHOLD = 20.0` (degrees, forward head tilt). -/
noncomputable def NECK_ANGLE_THRESHOLD : ℝ := 20.0

/-- `BACK_ANGLE_THRESHOLD = 15.0` (degrees, upper back slouching). -/
noncomputable def BACK_ANGLE_THRESHOLD : ℝ := 15.0

/-- `_compute_midpoint`: componentwise average of two points. -/
noncomputable def compute_midpoint (point1 point2 : Vec2) : Vec2 :=
  ⟨(point1.x + point2.x) / 2.0, (point1.y + point2.y) / 2.0⟩

/-- `np.linalg.norm` on a 2-vector: the Euclidean magnitude. -/
noncomputable def norm2 (v : Vec2) : ℝ :=
  Real.sqrt (v.x ^ 2 + v.y ^ 2)

/-- `np.clip(x, lo, hi)`: clamp `x` into `[lo, hi]` (lower bound applied
first, then upper bound). -/
noncomputable def clip (x lo hi : ℝ) : ℝ :=
  min (max x lo) hi

/-- `_compute_angle_with_vertical`: angle in degrees between `vector` and
the upward vertical axis `(0, -1)`.  Returns `0.0` for vectors of
magnitude below `1e-6`; otherwise normalizes, takes the dot product with
the vertical reference, clips it into `[-1, 1]`, applies `arccos` and
converts radians to degrees (`np.degrees x = x * (180 / π)`). -/
noncomputable def compute_angle_with_vertical (vector : Vec2) : ℝ :=
  let vertical : Vec2 := ⟨0.0, -1.0⟩
  let vector_magnitude := norm2 vector
  if vector_magnitude < 1e-6 then 0.0
  else
    let nx := vector.x / vector_magnitude
    let ny := vector.y / vector_magnitude
    let dot_product := clip (nx * vertical.x + ny * vertical.y) (-1.0) 1.0
    let angle_radians := Real.arccos dot_product
    angle_radians * (180 / Real.pi)

/-- A keypoint dictionary: a partial map from landmark names to 2D points.
`none` models an absent key (Python would raise `KeyError` on access). -/
def Keypoints : Type :=
  String → Option Vec2

/-- `_compute_neck_angle`: angle of the vector from the shoulder midpoint
to the nose, against vertical.  `none` when a required key is missing. -/
noncomputable def compute_neck_angle (keypoints : Keypoints) : Option ℝ :=
  match keypoints "left_shoulder", keypoints "right_shoulder", keypoints "nose" with
  | some ls, some rs, some nose =>
      let shoulder_midpoint := compute_midpoint ls rs
      let neck_vector : Vec2 :=
        ⟨nose.x - shoulder_midpoint.x, nose.y - shoulder_midpoint.y⟩
      some (compute_angle_with_vertical neck_vector)
  | _, _, _ => none

/-- `_compute_back_angle`: angle of the vector from the hip midpoint to
the shoulder midpoint, against vertical.  `none` when a required key is
missing. -/
noncomputable def compute_back_angle (keypoints : Keypoints) : Option ℝ :=
  match keypoints "left_hip", keypoints "right_hip",
        keypoints "left_shoulder", keypoints "right_shoulder" with
  | some lh, some rh, some ls, some rs =>
      let hip_midpoint := compute_midpoint lh rh
      let shoulder_midpoint := compute_midpoint ls rs
      let back_vector : Vec2 :=
        ⟨shoulder_midpoint.x - hip_midpoint.x, shoulder_midpoint.y - hip_midpoint.y⟩
      some (compute_angle_with_vertical back_vector)
  | _, _, _, _ => none

/-- `round(x, 1)`: round to one decimal place.  (Python rounds exact ties
to even; Mathlib's `round` rounds them up.  The two agree everywhere
except when `10 * x` is exactly half-way between two integers, a case no
property below exercises.) -/
noncomputable def round1 (x : ℝ) : ℝ :=
  (round (x * 10) : ℤ) / 10

/-- The result dictionary of `classify_posture`: both angles rounded to
one decimal, plus the verdict.  The source's boolean verdict over real
comparisons is embedded as a proposition. -/
structure PostureResult where
  neck_angle : ℝ
  back_angle : ℝ
  is_good : Prop

/-- `classify_posture`: compute both angles, compare each (unrounded)
angle against its threshold, and return the rounded angles together with
the conjunction verdict.  `none` when a required keypoint is missing. -/
noncomputable def classify_posture (keypoints : Keypoints) : Option PostureResult :=
  match compute_neck_angle keypoints, compute_back_angle keypoints with
  | some neck_angle, some back_angle =>
      let neck_ok := neck_angle ≤ NECK_ANGLE_THRESHOLD
      let back_ok := back_angle ≤ BACK_ANGLE_THRESHOLD
      some { neck_angle := round1 neck_angle
             back_angle := round1 back_angle
             is_good := neck_ok ∧ back_ok }
  | _, _ => none

/-! ### Helper lemmas -/

/-- `clip` is the identity on values already inside the interval. -/
lemma clip_of_mem {x lo hi : ℝ} (h1 : lo ≤ x) (h2 : x ≤ hi) : clip x lo hi = x := by
  rw [clip, max_eq_left h1, min_eq_left h2]

/-- Normal form of `compute_angle_with_vertical` with the numeric literals
and the zero `x`-contribution of the dot product simplified away. -/
lemma VA_def (v : Vec2) :
    compute_angle_with_vertical v =
      if norm2 v < 1e-6 then 0
      else Real.arccos (clip (v.y / norm2 v * (-1)) (-1) 1) * (180 / Real.pi) := by
  simp only [compute_angle_with_vertical]
  norm_num

/-- Magnitude of a vertical vector `(0, -c)` for `c ≥ 0`. -/
lemma norm2_vert (c : ℝ) (hc : 0 ≤ c) : norm2 ⟨0, -c⟩ = c := by
  rw [norm2, show ((0:ℝ) ^ 2 + (-c) ^ 2) = c ^ 2 by ring, Real.sqrt_sq hc]

/-- Magnitude of a horizontal vector `(c, 0)` for `c ≥ 0`. -/
lemma norm2_horiz (c : ℝ) (hc : 0 ≤ c) : norm2 ⟨c, 0⟩ = c := by
  rw [norm2, show (c ^ 2 + (0:ℝ) ^ 2) = c ^ 2 by ring, Real.sqrt_sq hc]

/-- A unit vector at angle `θ` from the upward vertical. -/
lemma norm2_sin_cos (θ : ℝ) : norm2 ⟨Real.sin θ, -Real.cos θ⟩ = 1 := by
  rw [norm2, show (Real.sin θ ^ 2 + (-Real.cos θ) ^ 2) = Real.sin θ ^ 2 + Real.cos θ ^ 2
    by ring, Real.sin_sq_add_cos_sq, Real.sqrt_one]

/-- The calculator recovers the angle of the unit vector
`(sin θ, -cos θ)`, for `θ` between `0` and `π` radians, converted to
degrees. -/
lemma VA_unit_angle (θ : ℝ) (h0 : 0 ≤ θ) (hπ : θ ≤ Real.pi) :
    compute_angle_with_vertical ⟨Real.sin θ, -Real.cos θ⟩ = θ * (180 / Real.pi) := by
  rw [VA_def, norm2_sin_cos, if_neg (by norm_num)]
  have h1 : -Real.cos θ / 1 * (-1) = Real.cos θ := by ring
  rw [h1, clip_of_mem (Real.neg_one_le_cos θ) (Real.cos_le_one θ), Real.arccos_cos h0 hπ]

/-- Straight-up vectors `(0, -c)` (with the guard not triggering) have
angle `0`. -/
lemma VA_straight_up (c : ℝ) (hc : (1e-6 : ℝ) ≤ c) :
    compute_angle_with_vertical ⟨0, -c⟩ = 0 := by
  have hc0 : (0:ℝ) ≤ c := le_trans (by norm_num) hc
  have hcpos : (0:ℝ) < c := lt_of_lt_of_le (by norm_num) hc
  rw [VA_def, norm2_vert c hc0, if_neg (not_lt.mpr hc)]
  have h1 : -c / c * (-1) = 1 := by field_simp
  rw [h1, clip_of_mem (by norm_num) le_rfl, Real.arccos_one, zero_mul]

/-- Negating the `x`-coordinate leaves the angle unchanged: the
magnitude depends on `x` only through `x²`, and the dot product with the
vertical reference `(0, -1)` does not involve `x` at all. -/
lemma VA_negx (x y : ℝ) :
    compute_angle_with_vertical ⟨-x, y⟩ = compute_angle_with_vertical ⟨x, y⟩ := by
  have hn : norm2 ⟨-x, y⟩ = norm2 ⟨x, y⟩ := by
    rw [norm2, norm2, neg_sq]
  rw [VA_def, VA_def, hn]

/-- Magnitude scales linearly under scalar multiplication by `k ≥ 0`. -/
lemma norm2_smul (x y k : ℝ) (hk : 0 ≤ k) :
    norm2 ⟨k * x, k * y⟩ = k * norm2 ⟨x, y⟩ := by
  rw [norm2, norm2, show ((k * x) ^ 2 + (k * y) ^ 2) = k ^ 2 * (x ^ 2 + y ^ 2) by ring,
    Real.sqrt_mul (by positivity), Real.sqrt_sq hk]

/-- Scale invariance, valid whenever neither the original nor the scaled
vector falls under the `1e-6` magnitude guard. -/
lemma VA_scale (x y k : ℝ) (hk : 0 < k)
    (h1 : ¬ norm2 ⟨x, y⟩ < 1e-6) (h2 : ¬ norm2 ⟨k * x, k * y⟩ < 1e-6) :
    compute_angle_with_vertical ⟨k * x, k * y⟩ = compute_angle_with_vertical ⟨x, y⟩ := by
  have hm : norm2 ⟨k * x, k * y⟩ = k * norm2 ⟨x, y⟩ := norm2_smul x y k hk.le
  rw [VA_def, VA_def, if_neg h2, if_neg h1, hm, mul_div_mul_left y (norm2 ⟨x, y⟩) hk.ne']

/-- Anchor value: straight up. -/
lemma VA_up : compute_angle_with_vertical ⟨0, -1⟩ = 0 := by
  have h := VA_unit_angle 0 le_rfl Real.pi_pos.le
  simpa using h

/-- Anchor value: straight down. -/
lemma VA_down : compute_angle_with_vertical ⟨0, 1⟩ = 180 := by
  have h := VA_unit_angle Real.pi Real.pi_pos.le le_rfl
  rw [Real.sin_pi, Real.cos_pi, neg_neg] at h
  rw [h]
  field_simp

/-- Anchor value: horizontal right. -/
lemma VA_right : compute_angle_with_vertical ⟨1, 0⟩ = 90 := by
  have h := VA_unit_angle (Real.pi / 2) (by positivity) (half_le_self Real.pi_pos.le)
  rw [Real.sin_pi_div_two, Real.cos_pi_div_two, neg_zero] at h
  rw [h]
  field_simp
  ring

/-- `compute_neck_angle` on a map holding all three keys it reads. -/
lemma compute_neck_angle_eq (kp : Keypoints) (ls rs nose : Vec2)
    (h1 : kp "left_shoulder" = some ls) (h2 : kp "right_shoulder" = some rs)
    (h3 : kp "nose" = some nose) :
    compute_neck_angle kp = some (compute_angle_with_vertical
      ⟨nose.x - (ls.x + rs.x) / 2, nose.y - (ls.y + rs.y) / 2⟩) := by
  unfold compute_neck_angle
  rw [h1, h2, h3]
  simp only [compute_midpoint]
  norm_num

/-- `compute_back_angle` on a map holding all four keys it reads. -/
lemma compute_back_angle_eq (kp : Keypoints) (lh rh ls rs : Vec2)
    (h1 : kp "left_hip" = some lh) (h2 : kp "right_hip" = some rh)
    (h3 : kp "left_shoulder" = some ls) (h4 : kp "right_shoulder" = some rs) :
    compute_back_angle kp = some (compute_angle_with_vertical
      ⟨(ls.x + rs.x) / 2 - (lh.x + rh.x) / 2, (ls.y + rs.y) / 2 - (lh.y + rh.y) / 2⟩) := by
  unfold compute_back_angle
  rw [h1, h2, h3, h4]
  simp only [compute_midpoint]
  norm_num

/-- `classify_posture` once both angles are known. -/
lemma classify_posture_eq (kp : Keypoints) (na ba : ℝ)
    (hn : compute_neck_angle kp = some na) (hb : compute_back_angle kp = some ba) :
    classify_posture kp =
      some ⟨round1 na, round1 ba, na ≤ NECK_ANGLE_THRESHOLD ∧ ba ≤ BACK_ANGLE_THRESHOLD⟩ := by
  unfold classify_posture
  rw [hn, hb]

/-- A missing key read by `compute_neck_angle` makes it propagate `none`. -/
lemma compute_neck_angle_none (kp : Keypoints)
    (h : kp "left_shoulder" = none ∨ kp "right_shoulder" = none ∨ kp "nose" = none) :
    compute_neck_angle kp = none := by
  unfold compute_neck_angle
  cases h1 : kp "left_shoulder" <;> cases h2 : kp "right_shoulder" <;>
    cases h3 : kp "nose" <;> simp_all

/-- A missing key read by `compute_back_angle` makes it propagate `none`. -/
lemma compute_back_angle_none (kp : Keypoints)
    (h : kp "left_hip" = none ∨ kp "right_hip" = none ∨
         kp "left_shoulder" = none ∨ kp "right_shoulder" = none) :
    compute_back_angle kp = none := by
  unfold compute_back_angle
  cases h1 : kp "left_hip" <;> cases h2 : kp "right_hip" <;>
    cases h3 : kp "left_shoulder" <;> cases h4 : kp "right_shoulder" <;> simp_all

/-- `classify_posture` propagates a `none` from either angle computation. -/
lemma classify_posture_none (kp : Keypoints)
    (h : compute_neck_angle kp = none ∨ compute_back_angle kp = none) :
    classify_posture kp = none := by
  unfold classify_posture
  cases h1 : compute_neck_angle kp <;> cases h2 : compute_back_angle kp <;> simp_all

/-! ### Concrete keypoint fixtures -/

/-- Scenario-A keypoints (good posture) from spec §8. -/
noncomputable def kpGood : Keypoints := fun s =>
  if s = "nose" then some ⟨320, 100⟩
  else if s = "left_shoulder" then some ⟨280, 200⟩
  else if s = "right_shoulder" then some ⟨360, 200⟩
  else if s = "left_hip" then some ⟨290, 400⟩
  else if s = "right_hip" then some ⟨350, 400⟩
  else none

/-- Scenario-A keypoints extended with an extra, irrelevant landmark. -/
noncomputable def kpGoodExtra : Keypoints := fun s =>
  if s = "nose" then some ⟨320, 100⟩
  else if s = "left_shoulder" then some ⟨280, 200⟩
  else if s = "right_shoulder" then some ⟨360, 200⟩
  else if s = "left_hip" then some ⟨290, 400⟩
  else if s = "right_hip" then some ⟨350, 400⟩
  else if s = "left_ear" then some ⟨300, 90⟩
  else none

/-- The scenario-B test fixture (`src/tests/test_logic.py`). -/
noncomputable def kpFixtureB : Keypoints := fun s =>
  if s = "left_shoulder" then some ⟨400, 300⟩
  else if s = "right_shoulder" then some ⟨500, 300⟩
  else if s = "left_hip" then some ⟨420, 450⟩
  else if s = "right_hip" then some ⟨480, 450⟩
  else if s = "nose" then some ⟨450, 250⟩
  else none

/-- A configuration realizing a neck angle of exactly `20°` and a back
angle of exactly `15°`: shoulders coincide at the origin, the nose sits
on the unit circle at `20°` from vertical, and the hips sit so that the
hip-to-shoulder vector is on the unit circle at `15°` from vertical. -/
noncomputable def kpBoundary : Keypoints := fun s =>
  if s = "nose" then some ⟨Real.sin (Real.pi / 9), -Real.cos (Real.pi / 9)⟩
  else if s = "left_shoulder" then some ⟨0, 0⟩
  else if s = "right_shoulder" then some ⟨0, 0⟩
  else if s = "left_hip" then some ⟨-Real.sin (Real.pi / 12), Real.cos (Real.pi / 12)⟩
  else if s = "right_hip" then some ⟨-Real.sin (Real.pi / 12), Real.cos (Real.pi / 12)⟩
  else none

/-- The empty keypoint mapping: every landmark absent. -/
def kpEmpty : Keypoints := fun _ => none

lemma neck_kpGood : compute_neck_angle kpGood = some 0 := by
  rw [compute_neck_angle_eq kpGood ⟨280, 200⟩ ⟨360, 200⟩ ⟨320, 100⟩ rfl rfl rfl]
  norm_num
  rw [show (⟨0, -100⟩ : Vec2) = ⟨0, -(100:ℝ)⟩ by norm_num,
    VA_straight_up 100 (by norm_num)]

lemma back_kpGood : compute_back_angle kpGood = some 0 := by
  rw [compute_back_angle_eq kpGood ⟨290, 400⟩ ⟨350, 400⟩ ⟨280, 200⟩ ⟨360, 200⟩ rfl rfl rfl rfl]
  norm_num
  rw [show (⟨0, -200⟩ : Vec2) = ⟨0, -(200:ℝ)⟩ by norm_num,
    VA_straight_up 200 (by norm_num)]

lemma neck_kpFixtureB : compute_neck_angle kpFixtureB = some 0 := by
  rw [compute_neck_angle_eq kpFixtureB ⟨400, 300⟩ ⟨500, 300⟩ ⟨450, 250⟩ rfl rfl rfl]
  norm_num
  rw [show (⟨0, -50⟩ : Vec2) = ⟨0, -(50:ℝ)⟩ by norm_num,
    VA_straight_up 50 (by norm_num)]

lemma back_kpFixtureB : compute_back_angle kpFixtureB = some 0 := by
  rw [compute_back_angle_eq kpFixtureB ⟨420, 450⟩ ⟨480, 450⟩ ⟨400, 300⟩ ⟨500, 300⟩ rfl rfl rfl rfl]
  norm_num
  rw [show (⟨0, -150⟩ : Vec2) = ⟨0, -(150:ℝ)⟩ by norm_num,
    VA_straight_up 150 (by norm_num)]

lemma neck_kpBoundary : compute_neck_angle kpBoundary = some 20 := by
  rw [compute_neck_angle_eq kpBoundary ⟨0, 0⟩ ⟨0, 0⟩
    ⟨Real.sin (Real.pi / 9), -Real.cos (Real.pi / 9)⟩ rfl rfl rfl]
  norm_num
  rw [VA_unit_angle (Real.pi / 9) (by positivity)
    (div_le_self Real.pi_pos.le (by norm_num))]
  field_simp
  ring

lemma back_kpBoundary : compute_back_angle kpBoundary = some 15 := by
  rw [compute_back_angle_eq kpBoundary
    ⟨-Real.sin (Real.pi / 12), Real.cos (Real.pi / 12)⟩
    ⟨-Real.sin (Real.pi / 12), Real.cos (Real.pi / 12)⟩
    ⟨0, 0⟩ ⟨0, 0⟩ rfl rfl rfl rfl]
  norm_num
  rw [VA_unit_angle (Real.pi / 12) (by positivity)
    (div_le_self Real.pi_pos.le (by norm_num))]
  field_simp
  ring

/-! ### Claims -/

/-- Claim C1: for every keypoint set containing all five required names
(so that both angle computations succeed), `classify_posture` returns a
verdict equal to the conjunction `neck_angle ≤ 20 ∧ back_angle ≤ 15` of
the two independently computed angle comparisons; the thresholds are
inclusive, so angles exactly at `20` and `15` yield a good verdict. -/
theorem C1_verdict_is_inclusive_conjunction (kp : Keypoints) (na ba : ℝ)
    (hn : compute_neck_angle kp = some na) (hb : compute_back_angle kp = some ba) :
    ∃ r : PostureResult, classify_posture kp = some r ∧
      (r.is_good ↔ (na ≤ NECK_ANGLE_THRESHOLD ∧ ba ≤ BACK_ANGLE_THRESHOLD)) ∧
      (na = 20 → ba = 15 → r.is_good) := by
  refine ⟨_, classify_posture_eq kp na ba hn hb, Iff.rfl, ?_⟩
  rintro rfl rfl
  constructor <;> norm_num [NECK_ANGLE_THRESHOLD, BACK_ANGLE_THRESHOLD]

/-- Witness for C1, at the boundary configuration whose neck angle is
exactly `20°` and back angle exactly `15°`: the verdict is good. -/
theorem C1_witness :
    compute_neck_angle kpBoundary = some 20 ∧
    compute_back_angle kpBoundary = some 15 ∧
    ∃ r : PostureResult, classify_posture kpBoundary = some r ∧
      (r.is_good ↔ ((20:ℝ) ≤ NECK_ANGLE_THRESHOLD ∧ (15:ℝ) ≤ BACK_ANGLE_THRESHOLD)) ∧
      ((20:ℝ) = 20 → (15:ℝ) = 15 → r.is_good) :=
  ⟨neck_kpBoundary, back_kpBoundary,
    C1_verdict_is_inclusive_conjunction kpBoundary 20 15 neck_kpBoundary back_kpBoundary⟩

/-- Claim C2: the angle fields of the result are the computed angles
rounded to one decimal place while the verdict compares the unrounded
angles; hence a raw angle strictly above its threshold gives a bad
verdict even when its rounded value equals the threshold. -/
theorem C2_rounded_fields_unrounded_verdict (kp : Keypoints) (na ba : ℝ)
    (hn : compute_neck_angle kp = some na) (hb : compute_back_angle kp = some ba) :
    ∃ r : PostureResult, classify_posture kp = some r ∧
      r.neck_angle = round1 na ∧ r.back_angle = round1 ba ∧
      (r.is_good ↔ (na ≤ NECK_ANGLE_THRESHOLD ∧ ba ≤ BACK_ANGLE_THRESHOLD)) ∧
      (NECK_ANGLE_THRESHOLD < na → round1 na = NECK_ANGLE_THRESHOLD → ¬ r.is_good) ∧
      (BACK_ANGLE_THRESHOLD < ba → round1 ba = BACK_ANGLE_THRESHOLD → ¬ r.is_good) := by
  refine ⟨_, classify_posture_eq kp na ba hn hb, rfl, rfl, Iff.rfl, ?_, ?_⟩
  · intro h _ hg
    exact absurd hg.1 (not_le.mpr h)
  · intro h _ hg
    exact absurd hg.2 (not_le.mpr h)

/-- Witness for C2 at the scenario-A keypoints (both angles `0`). -/
theorem C2_witness :
    compute_neck_angle kpGood = some 0 ∧ compute_back_angle kpGood = some 0 ∧
    ∃ r : PostureResult, classify_posture kpGood = some r ∧
      r.neck_angle = round1 0 ∧ r.back_angle = round1 0 ∧
      (r.is_good ↔ ((0:ℝ) ≤ NECK_ANGLE_THRESHOLD ∧ (0:ℝ) ≤ BACK_ANGLE_THRESHOLD)) ∧
      (NECK_ANGLE_THRESHOLD < 0 → round1 0 = NECK_ANGLE_THRESHOLD → ¬ r.is_good) ∧
      (BACK_ANGLE_THRESHOLD < 0 → round1 0 = BACK_ANGLE_THRESHOLD → ¬ r.is_good) :=
  ⟨neck_kpGood, back_kpGood,
    C2_rounded_fields_unrounded_verdict kpGood 0 0 neck_kpGood back_kpGood⟩

/-- Claim C3: on the scenario-B fixture, the shoulder midpoint is
`(450, 300)`, the neck vector is `(0, -50)`, and the returned neck angle
is `0.0`: the nose lies directly above the shoulder midpoint, so the
geometry yields `0` despite the fixture being labelled bad posture. -/
theorem C3_fixtureB_neck_angle_zero :
    compute_midpoint ⟨400, 300⟩ ⟨500, 300⟩ = ⟨450, 300⟩ ∧
    compute_neck_angle kpFixtureB = some (compute_angle_with_vertical ⟨0, -50⟩) ∧
    compute_neck_angle kpFixtureB = some 0 ∧
    ∃ r : PostureResult, classify_posture kpFixtureB = some r ∧ r.neck_angle = 0 := by
  refine ⟨by rw [compute_midpoint]; norm_num, ?_, neck_kpFixtureB, ?_⟩
  · rw [neck_kpFixtureB, show (⟨0, -50⟩ : Vec2) = ⟨0, -(50:ℝ)⟩ by norm_num,
      VA_straight_up 50 (by norm_num)]
  · refine ⟨_, classify_posture_eq kpFixtureB 0 0 neck_kpFixtureB back_kpFixtureB, ?_⟩
    show round1 0 = 0
    simp [round1]

/-- Claim C4 as stated is false on the code: scaling `(1, 0)` by the
positive factor `k = 1/10^7` drops the magnitude below the `1e-6` guard,
so the angle jumps from `90` to `0`. -/
theorem C4_counterexample :
    ¬ (compute_angle_with_vertical ⟨1, 0⟩ =
       compute_angle_with_vertical ⟨(1 / 10 ^ 7) * 1, (1 / 10 ^ 7) * 0⟩) := by
  have hmag : norm2 ⟨(1 / 10 ^ 7) * 1, (1 / 10 ^ 7) * 0⟩ < 1e-6 := by
    rw [norm2, show (((1:ℝ) / 10 ^ 7) * 1) ^ 2 + (((1:ℝ) / 10 ^ 7) * 0) ^ 2
        = (1 / 10 ^ 7 : ℝ) ^ 2 by ring, Real.sqrt_sq (by norm_num)]
    norm_num
  have h0 : compute_angle_with_vertical ⟨(1 / 10 ^ 7) * 1, (1 / 10 ^ 7) * 0⟩ = 0 := by
    rw [VA_def, if_pos hmag]
  rw [VA_right, h0]
  norm_num

/-- Claim C4 amended: scale invariance holds for every `k > 0` provided
neither the original nor the scaled vector has magnitude below the
`1e-6` degenerate-vector guard. -/
theorem C4_amended_scale_invariance (x y k : ℝ) (hk : 0 < k)
    (h1 : ¬ norm2 ⟨x, y⟩ < 1e-6) (h2 : ¬ norm2 ⟨k * x, k * y⟩ < 1e-6) :
    compute_angle_with_vertical ⟨x, y⟩ = compute_angle_with_vertical ⟨k * x, k * y⟩ :=
  (VA_scale x y k hk h1 h2).symm

/-- Witness for the amended C4 at `(x, y) = (1, 0)`, `k = 2`. -/
theorem C4_witness :
    (0:ℝ) < 2 ∧ ¬ norm2 ⟨1, 0⟩ < 1e-6 ∧ ¬ norm2 ⟨2 * 1, 2 * 0⟩ < 1e-6 ∧
    compute_angle_with_vertical ⟨1, 0⟩ = compute_angle_with_vertical ⟨2 * 1, 2 * 0⟩ := by
  have h1 : ¬ norm2 (⟨1, 0⟩ : Vec2) < 1e-6 := by
    rw [norm2_horiz 1 (by norm_num)]
    norm_num
  have h2 : ¬ norm2 (⟨2 * 1, 2 * 0⟩ : Vec2) < 1e-6 := by
    rw [norm2, show ((2:ℝ) * 1) ^ 2 + ((2:ℝ) * 0) ^ 2 = (2:ℝ) ^ 2 by ring,
      Real.sqrt_sq (by norm_num)]
    norm_num
  exact ⟨by norm_num, h1, h2, C4_amended_scale_invariance 1 0 2 (by norm_num) h1 h2⟩

/-- Claim C5: every vector of magnitude below `1e-6` — including the
zero vector — yields exactly `0`; no error value is produced (in this
real-number embedding the function is total, so no NaN can arise). -/
theorem C5_small_vector_returns_zero (v : Vec2) (h : norm2 v < 1e-6) :
    compute_angle_with_vertical v = 0 := by
  rw [VA_def, if_pos h]

/-- Witness for C5 at the zero vector. -/
theorem C5_witness :
    norm2 ⟨0, 0⟩ < 1e-6 ∧ compute_angle_with_vertical ⟨0, 0⟩ = 0 := by
  have h : norm2 (⟨0, 0⟩ : Vec2) < 1e-6 := by
    rw [norm2]
    norm_num
  exact ⟨h, C5_small_vector_returns_zero ⟨0, 0⟩ h⟩

/-- Claim C6: the angle always lies in the closed interval `[0, 180]`;
the dot product is clipped into `[-1, 1]` before `arccos`, so the
`arccos` domain is always respected and the result is never negative. -/
theorem C6_range (v : Vec2) :
    0 ≤ compute_angle_with_vertical v ∧ compute_angle_with_vertical v ≤ 180 := by
  rw [VA_def]
  by_cases h : norm2 v < 1e-6
  · rw [if_pos h]
    norm_num
  · rw [if_neg h]
    have h0 : 0 ≤ Real.arccos (clip (v.y / norm2 v * (-1)) (-1) 1) :=
      Real.arccos_nonneg _
    have h1 : Real.arccos (clip (v.y / norm2 v * (-1)) (-1) 1) ≤ Real.pi :=
      Real.arccos_le_pi _
    have hc : (0:ℝ) ≤ 180 / Real.pi := by positivity
    refine ⟨mul_nonneg h0 hc, ?_⟩
    calc Real.arccos (clip (v.y / norm2 v * (-1)) (-1) 1) * (180 / Real.pi)
        ≤ Real.pi * (180 / Real.pi) := mul_le_mul_of_nonneg_right h1 hc
      _ = 180 := by field_simp

/-- Claim C7: a keypoint mapping lacking any of the five required names
makes `classify_posture` fail fast (return `none`, the embedding of the
Python `KeyError`) rather than substitute a default or return a partial
result. -/
theorem C7_missing_key_fails (kp : Keypoints)
    (h : kp "nose" = none ∨ kp "left_shoulder" = none ∨ kp "right_shoulder" = none ∨
         kp "left_hip" = none ∨ kp "right_hip" = none) :
    classify_posture kp = none := by
  rcases h with h | h | h | h | h
  · exact classify_posture_none kp (Or.inl (compute_neck_angle_none kp (Or.inr (Or.inr h))))
  · exact classify_posture_none kp (Or.inl (compute_neck_angle_none kp (Or.inl h)))
  · exact classify_posture_none kp (Or.inl (compute_neck_angle_none kp (Or.inr (Or.inl h))))
  · exact classify_posture_none kp (Or.inr (compute_back_angle_none kp (Or.inl h)))
  · exact classify_posture_none kp (Or.inr (compute_back_angle_none kp (Or.inr (Or.inl h))))

/-- Witness for C7 at the empty mapping (nose absent). -/
theorem C7_witness :
    kpEmpty "nose" = none ∧ classify_posture kpEmpty = none :=
  ⟨rfl, C7_missing_key_fails kpEmpty (Or.inl rfl)⟩

/-- Claim C8: left/right symmetry — negating the `x`-coordinate of the
input vector leaves the angle unchanged. -/
theorem C8_x_negation_symmetry (x y : ℝ) :
    compute_angle_with_vertical ⟨x, y⟩ = compute_angle_with_vertical ⟨-x, y⟩ :=
  (VA_negx x y).symm

/-- Claim C9: the exact anchor values `(0,-1) ↦ 0`, `(0,1) ↦ 180`,
`(1,0) ↦ 90` and `(-1,0) ↦ 90`. -/
theorem C9_anchor_values :
    compute_angle_with_vertical ⟨0, -1⟩ = 0 ∧
    compute_angle_with_vertical ⟨0, 1⟩ = 180 ∧
    compute_angle_with_vertical ⟨1, 0⟩ = 90 ∧
    compute_angle_with_vertical ⟨-1, 0⟩ = 90 := by
  refine ⟨VA_up, VA_down, VA_right, ?_⟩
  rw [show (⟨-1, 0⟩ : Vec2) = ⟨-(1:ℝ), 0⟩ by norm_num, VA_negx 1 0, VA_right]

/-- Claim C10: the classification depends only on the entries bound to
the five required names — two mappings agreeing on them receive
identical results, so extra entries are ignored.  (The embedding is a
pure function, mirroring the source, which only reads its input.) -/
theorem C10_depends_only_on_required_keys (kp1 kp2 : Keypoints)
    (h1 : kp1 "nose" = kp2 "nose")
    (h2 : kp1 "left_shoulder" = kp2 "left_shoulder")
    (h3 : kp1 "right_shoulder" = kp2 "right_shoulder")
    (h4 : kp1 "left_hip" = kp2 "left_hip")
    (h5 : kp1 "right_hip" = kp2 "right_hip") :
    classify_posture kp1 = classify_posture kp2 := by
  unfold classify_posture compute_neck_angle compute_back_angle
  rw [h1, h2, h3, h4, h5]

/-- Witness for C10: the scenario-A mapping against the same mapping
extended with an extra `left_ear` entry. -/
theorem C10_witness :
    kpGood "nose" = kpGoodExtra "nose" ∧
    kpGood "left_shoulder" = kpGoodExtra "left_shoulder" ∧
    kpGood "right_shoulder" = kpGoodExtra "right_shoulder" ∧
    kpGood "left_hip" = kpGoodExtra "left_hip" ∧
    kpGood "right_hip" = kpGoodExtra "right_hip" ∧
    classify_posture kpGood = classify_posture kpGoodExtra :=
  ⟨rfl, rfl, rfl, rfl, rfl,
    C10_depends_only_on_required_keys kpGood kpGoodExtra rfl rfl rfl rfl rfl⟩

end PostureLogic
